import Mathlib

/-
Verification of the stock_scraper repository (src/scraper.py) against its
natural-language specification.

The Python module is a thin orchestration layer over yfinance and the file
system.  We embed the orchestration logic shallowly:

* External effects (yfinance calls, os.makedirs, file writes, the clock) are
  modelled by an explicit environment `ScrapeEnv` that fixes the outcome of
  each external call: whether the i-th Ticker-creation attempt succeeds,
  what each data-category fetch yields (an exception, or a value together
  with a flag saying whether writing it raises), whether `os.makedirs`
  raises, and whether writing the summary report raises.

* Observable effects are recorded in an event trace (`Ev`): Ticker-creation
  attempts, `time.sleep(delay)` calls, the start of each category block, and
  each `save_data` call together with its boolean result.

* pandas values are modelled by `PyData`, which records exactly what the
  Python code inspects: `None`-ness, DataFrame row counts (for `.empty`
  checks), the row count of the DataFrame a dict converts to, list lengths,
  and raw strings (for the `str(data).strip()` check).

* Python exceptions are modelled with `Except`: the body of the outermost
  `try` of `get_stock_data` is `get_stock_data_body`, whose `.error` case
  carries the trace accumulated before the unhandled exception.

Logging and the Streamlit UI are out of scope (the spec scopes them out);
the log-stream component of `run_scraper`'s return value is dropped.
-/

namespace StockScraper

/-! ## Data model -/

/-- Model of the Python values that flow into `save_data` and the category
guards: `None`, a DataFrame with a given number of rows, a dict whose
`pd.DataFrame.from_dict(·, orient=index)` conversion has a given number of
rows (= `len` of the dict), a list with a given length, and an arbitrary
value carried to the `str(data)` fallback branch as its string form. -/
inductive PyData where
  | pyNone : PyData
  | dataFrame (rows : Nat) : PyData
  | pyDict (rows : Nat) : PyData
  | pyList (len : Nat) : PyData
  | pyStr (s : String) : PyData
deriving DecidableEq

/-- `os.path.join(dir, filename)` for a relative, slash-free second
component on a POSIX system. -/
def pathJoin (dir filename : String) : String := dir ++ "/" ++ filename

/-- Python whitespace as stripped by `str.strip()` (ASCII range). -/
def pyIsSpace (c : Char) : Bool :=
  c = ' ' || c = Char.ofNat 9 || c = Char.ofNat 10 || c = Char.ofNat 13 ||
  c = Char.ofNat 11 || c = Char.ofNat 12

/-- Python `str.strip()`: drop whitespace from both ends. -/
def pyStrip (s : String) : String :=
  String.mk (((s.data.dropWhile pyIsSpace).reverse.dropWhile pyIsSpace).reverse)

/-! ## save_data  (src/scraper.py lines 61-95)

Returns the Boolean result of the Python function together with
`some filepath` when a file was written and `none` when not; `raisesInTry`
says whether the body of the `try` (the dict conversion or the actual
write, both opaque I/O) raises.  For a list value the `else` branch writes
`str(data)`, which is never empty after stripping (`"[]"` at minimum), so
the strip check always passes there. -/

def save_data (data : PyData) (filename output_dir : String) (raisesInTry : Bool) :
    Bool × Option String :=
  let filepath := pathJoin output_dir filename
  match data with
  | .pyNone => (false, none)
  | .dataFrame rows =>
      if rows = 0 then (false, none)
      else if raisesInTry then (false, none) else (true, some filepath)
  | .pyDict rows =>
      if raisesInTry then (false, none)
      else if rows = 0 then (false, none) else (true, some filepath)
  | .pyList _ =>
      if raisesInTry then (false, none) else (true, some filepath)
  | .pyStr s =>
      if raisesInTry then (false, none)
      else if pyStrip s = "" then (false, none) else (true, some filepath)

/-- The spec's notion of "empty data" for `save_data` (claim C2's wording):
`None`, an empty DataFrame, a dict that converts to an empty DataFrame, or
a string that is empty after stripping whitespace. -/
def dataIsEmpty : PyData → Bool
  | .pyNone => true
  | .dataFrame rows => decide (rows = 0)
  | .pyDict rows => decide (rows = 0)
  | .pyList _ => false
  | .pyStr s => decide (pyStrip s = "")

/-! ## create_output_directory  (src/scraper.py lines 54-58) -/

/-- The directory name computed by `create_output_directory`:
`"stock_data_"` followed by the ticker symbol with `'.'` replaced by
`'_'` (Python `str.replace` with a one-character pattern is a character
map). -/
def create_output_directory (ticker_symbol : String) : String :=
  "stock_data_" ++ String.mk (ticker_symbol.data.map (fun c => if c = '.' then '_' else c))

/-- `create_output_directory` including its file-system effect: the set of
existing directories is a list of names, and `os.makedirs` appends the new
name exactly when `os.path.exists` is false. -/
def create_output_directory_fs (ticker_symbol : String) (dirs : List String) :
    String × List String :=
  let output_dir := create_output_directory ticker_symbol
  if output_dir ∈ dirs then (output_dir, dirs) else (output_dir, dirs ++ [output_dir])

/-! ## Ticker resolution  (src/scraper.py lines 345-349 and 366-367) -/

/-- `ticker_name.replace(" ", "")` in `run_scraper`. -/
def removeSpaces (s : String) : String :=
  String.mk (s.data.filter (fun c => decide (c ≠ ' ')))

/-- `get_indian_tickers`: one candidate per extension, extensions = `[".NS"]`. -/
def get_indian_tickers (base_ticker : String) : List String :=
  let extensions := [".NS"]
  extensions.map (fun ext => base_ticker ++ ext)

/-! ## Event trace -/

/-- Observable events of one `get_stock_data` run: a Ticker-creation
attempt (with its 0-based index), a `time.sleep(delay)` call, the start of
the k-th data-category block (its opening `logger.info`/fetch), a
`save_data` call in a category block (with the saved filename and the
Boolean result), and the `save_data` call on the summary report. -/
inductive Ev where
  | attempt (i : Nat) : Ev
  | sleep (secs : Nat) : Ev
  | fetch (k : Nat) : Ev
  | save (filename : String) (ok : Bool) : Ev
  | saveSummary (ok : Bool) : Ev
deriving DecidableEq

def Ev.isAttempt : Ev → Bool
  | .attempt _ => true
  | _ => false

def Ev.isSleep : Ev → Bool
  | .sleep _ => true
  | _ => false

def Ev.isFetch : Ev → Bool
  | .fetch _ => true
  | _ => false

def Ev.isSaveTrue : Ev → Bool
  | .save _ true => true
  | _ => false

def Ev.isSaveSummary : Ev → Bool
  | .saveSummary _ => true
  | _ => false

/-! ## The retry loop  (src/scraper.py lines 110-127)

```
ticker = None
for attempt in range(retry_count):
    try:
        ticker = yf.Ticker(ticker_symbol)
        _ = ticker.info.get(shortName, None)   # may raise -> attempt fails
        break
    except Exception as e:
        if attempt < retry_count - 1:
            time.sleep(delay)                  # sleep between failed attempts
        else:
            return False, [], None             # last attempt failed
if ticker is None:
    return False, [], None                     # retry_count == 0
```

`retryLoopAux ok d remaining a` runs the loop from attempt index `a` with
`remaining = retry_count - a` iterations left; `remaining = 1` is exactly
the Python condition `not (attempt < retry_count - 1)`.  It returns the
index of the first successful attempt (or `none`) and the event trace. -/

def retryLoopAux (ok : Nat → Bool) (d : Nat) : Nat → Nat → Option Nat × List Ev
  | 0, _ => (none, [])
  | 1, a => if ok a then (some a, [Ev.attempt a]) else (none, [Ev.attempt a])
  | (r + 2), a =>
      if ok a then (some a, [Ev.attempt a])
      else
        let rest := retryLoopAux ok d (r + 1) (a + 1)
        (rest.1, Ev.attempt a :: Ev.sleep d :: rest.2)

/-! ## Data categories  (src/scraper.py lines 131-307)

Each of the 15 category blocks has the shape

```
try:
    x = ticker.<attr>                      # may raise
    if <guard(x)>:
        filename = <fixed name>
        if save_data(<transform(x)>, filename, output_dir, logger):
            successful_files += 1
            generated_files.append(os.path.join(output_dir, filename))
except Exception as e:
    logger.warning(...)
```

and differs only in the filename, the guard and the transform. -/

/-- Outcome of one `ticker.<attr>` access: the access raises, or it yields
a value `v` and the subsequent `save_data` call (if the guard passes)
raises iff `saveRaises`. -/
inductive CatOutcome where
  | raise : CatOutcome
  | value (v : PyData) (saveRaises : Bool) : CatOutcome

structure CatSpec where
  filename : String
  guard : PyData → Bool
  transform : PyData → PyData

/-- Guard `not x.empty` (categories taking a DataFrame from the API). -/
def guardNotEmpty : PyData → Bool
  | .dataFrame rows => decide (0 < rows)
  | _ => false

/-- Guard `x is not None and not x.empty`. -/
def guardNotNoneNotEmpty : PyData → Bool
  | .dataFrame rows => decide (0 < rows)
  | _ => false

/-- Guard `x is not None and len(x) > 0` on a Series; the transform
`pd.DataFrame(series)` keeps the row count, so a Series of length n is
carried as `.dataFrame n`. -/
def guardNotNoneLenPos : PyData → Bool
  | .dataFrame rows => decide (0 < rows)
  | _ => false

/-- Guard `info and len(info) > 0` on the info dict. -/
def guardDictNonEmpty : PyData → Bool
  | .pyDict rows => decide (0 < rows)
  | _ => false

/-- `pd.DataFrame.from_dict(info, orient=index, columns=[Value])`:
a dict with n entries becomes a DataFrame with n rows. -/
def dictToFrame : PyData → PyData
  | .pyDict rows => .dataFrame rows
  | v => v

/-- Guard `news and len(news) > 0` on the news list. -/
def guardListNonEmpty : PyData → Bool
  | .pyList len => decide (0 < len)
  | _ => false

/-- `pd.DataFrame(news)`: a list of n records becomes n rows. -/
def listToFrame : PyData → PyData
  | .pyList len => .dataFrame len
  | v => v

/-- The 15 category blocks, in source order (lines 131-307). -/
def catSpecs : List CatSpec :=
  [ ⟨"company_info.csv", guardDictNonEmpty, dictToFrame⟩,
    ⟨"historical_data.csv", guardNotEmpty, id⟩,
    ⟨"income_statement.csv", guardNotEmpty, id⟩,
    ⟨"balance_sheet.csv", guardNotEmpty, id⟩,
    ⟨"cash_flow.csv", guardNotEmpty, id⟩,
    ⟨"quarterly_income_statement.csv", guardNotEmpty, id⟩,
    ⟨"quarterly_balance_sheet.csv", guardNotEmpty, id⟩,
    ⟨"quarterly_cash_flow.csv", guardNotEmpty, id⟩,
    ⟨"major_holders.csv", guardNotNoneNotEmpty, id⟩,
    ⟨"recommendations.csv", guardNotNoneNotEmpty, id⟩,
    ⟨"esg_data.csv", guardNotNoneNotEmpty, id⟩,
    ⟨"news.csv", guardListNonEmpty, listToFrame⟩,
    ⟨"actions.csv", guardNotNoneNotEmpty, id⟩,
    ⟨"dividends.csv", guardNotNoneLenPos, id⟩,
    ⟨"splits.csv", guardNotNoneLenPos, id⟩ ]

/-- The fixed filenames `get_stock_data` can save, category files first,
summary report last. -/
def allFilenames : List String := catSpecs.map CatSpec.filename ++ ["summary_report.txt"]

/-- The running `successful_files` counter and `generated_files` list of
`get_stock_data` (lines 104-105). -/
structure ScrapeState where
  successful_files : Nat
  generated_files : List String

/-- One category block run against the outcome of its fetch. -/
def runCategory (out : String) (spec : CatSpec) (outcome : CatOutcome) (st : ScrapeState) :
    ScrapeState × List Ev :=
  match outcome with
  | .raise => (st, [])
  | .value v saveRaises =>
      if spec.guard v then
        if (save_data (spec.transform v) spec.filename out saveRaises).1 then
          (⟨st.successful_files + 1, st.generated_files ++ [pathJoin out spec.filename]⟩,
           [Ev.save spec.filename true])
        else (st, [Ev.save spec.filename false])
      else (st, [])

/-- The environment fixing every external outcome of one
`get_stock_data` call. -/
structure ScrapeEnv where
  attemptOk : Nat → Bool
  cat : Nat → CatOutcome
  mkdirRaises : Bool
  summarySaveRaises : Bool
  now : String

/-- Run the category blocks in order; each block k starts with a
`fetch k` event. -/
def runCatList (out : String) (env : ScrapeEnv) :
    List (Nat × CatSpec) → ScrapeState → ScrapeState × List Ev
  | [], st => (st, [])
  | x :: rest, st =>
      let r₁ := runCategory out x.2 (env.cat x.1) st
      let r₂ := runCatList out env rest r₁.1
      (r₂.1, (Ev.fetch x.1 :: r₁.2) ++ r₂.2)

/-! ## The summary report  (src/scraper.py lines 309-335) -/

/-- A single-quote character, written without an apostrophe literal. -/
def squote : String := String.singleton (Char.ofNat 39)

/-- The f-string of lines 310-329, with the interpolated values as
arguments (`now` stands for `datetime.now().strftime(...)`). -/
def summaryText (now ticker_name ticker_symbol : String) (successful_files : Nat)
    (output_dir : String) : String :=
  "\n        Stock Data Scraping Summary Report\n        ===============================\n        Date: "
    ++ now
    ++ "\n        Company: " ++ ticker_name
    ++ "\n        Ticker: " ++ ticker_symbol
    ++ "\n        Files Generated: " ++ toString successful_files
    ++ "\n\n        Data Collected:\n        - Company Information\n        - Historical Market Data\n        - Financial Statements (Annual & Quarterly)\n        - Major Shareholders\n        - Analyst Recommendations\n        - ESG Data (if available)\n        - News Articles\n        - Dividends and Splits\n\n        All data has been saved to the "
    ++ squote ++ output_dir ++ squote ++ " directory.\n        "

/-! ## get_stock_data  (src/scraper.py lines 99-341) -/

abbrev ScrapeResult := Bool × List String × Option String

/-- The body of the outermost `try` of `get_stock_data`.  `.error tr`
means an exception escaped every inner handler (the only such point in the
body is `create_output_directory`, i.e. `os.makedirs`); `tr` is the trace
accumulated up to that exception. -/
def get_stock_data_body (env : ScrapeEnv) (ticker_symbol ticker_name : String)
    (retry_count delay : Nat) : Except (List Ev) (ScrapeResult × List Ev) :=
  let rl := retryLoopAux env.attemptOk delay retry_count 0
  match rl.1 with
  | none => .ok ((false, [], none), rl.2)
  | some _ =>
      if env.mkdirRaises then .error rl.2
      else
        let output_dir := create_output_directory ticker_symbol
        let rc := runCatList output_dir env catSpecs.enum ⟨0, []⟩
        let summary := summaryText env.now ticker_name ticker_symbol
          rc.1.successful_files output_dir
        let summarySaved :=
          (save_data (.pyStr summary) "summary_report.txt" output_dir env.summarySaveRaises).1
        let summary_report_path := pathJoin output_dir "summary_report.txt"
        .ok ((decide (0 < rc.1.successful_files),
              rc.1.generated_files ++ [summary_report_path],
              some summary_report_path),
             rl.2 ++ rc.2 ++ [Ev.saveSummary summarySaved])

/-- `get_stock_data`: the body with its outermost exception handler, which
turns any escaped exception into the return value `(False, [], None)`
(line 339-341). -/
def get_stock_data (env : ScrapeEnv) (ticker_symbol ticker_name : String)
    (retry_count delay : Nat) : ScrapeResult × List Ev :=
  match get_stock_data_body env ticker_symbol ticker_name retry_count delay with
  | .ok r => r
  | .error tr => ((false, [], none), tr)

/-! ## run_scraper  (src/scraper.py lines 361-406)

The loop over the candidate tickers; the spinner, logging and the
inter-ticker sleep carry no data and are dropped, as is the log-stream
component of the return value.  `envOf` gives the external outcomes of the
`get_stock_data` call for each ticker. -/

/-- Python truthiness of the returned `summary_path` (line 385,
`if summary_path:`). -/
def pyTruthyOpt : Option String → Bool
  | none => false
  | some s => decide (s ≠ "")

/-- The `for ticker in tickers` loop (lines 375-392), with state
`(successful_tickers, generated_files, summary_report_path)`. -/
def run_scraper_loop (fetch : String → ScrapeResult) :
    List String → List String × List String × Option String →
    List String × List String × Option String
  | [], st => st
  | t :: rest, st =>
      let r := fetch t
      if r.1 then
        run_scraper_loop fetch rest
          (st.1 ++ [t], st.2.1 ++ r.2.1,
           if pyTruthyOpt r.2.2 then r.2.2 else st.2.2)
      else run_scraper_loop fetch rest st

def run_scraper (envOf : String → ScrapeEnv) (ticker_name : String)
    (retry_count delay : Nat) : ScrapeResult :=
  let base_ticker := removeSpaces ticker_name
  let tickers := get_indian_tickers base_ticker
  let fetch := fun t => (get_stock_data (envOf t) t ticker_name retry_count delay).1
  let st := run_scraper_loop fetch tickers ([], [], none)
  if st.1.length = 0 then (false, [], none) else (true, st.2.1, st.2.2)

/-! ## Specification-side definitions used to characterize the loop -/

/-- Index of the first successful attempt among `a, a+1, ..., a+r-1`. -/
def firstOkFrom (ok : Nat → Bool) : Nat → Nat → Option Nat
  | 0, _ => none
  | (r + 1), a => if ok a then some a else firstOkFrom ok r (a + 1)

/-- The trace the retry loop is claimed to produce for a given list of
attempt indices: one `attempt` event per index, with a single
`sleep delay` between consecutive attempts and none after the last. -/
def expectedRetryTrace (d : Nat) : List Nat → List Ev
  | [] => []
  | i :: rest =>
      Ev.attempt i ::
        (match rest with
         | [] => []
         | _ :: _ => Ev.sleep d :: expectedRetryTrace d rest)

/-- The path recorded by a successful category `save_data` call. -/
def catSavePath (out : String) : Ev → Option String
  | .save f true => some (pathJoin out f)
  | _ => none

/-- The paths of all successful category saves in a trace, in order. -/
def catSavePathsOf (out : String) (evs : List Ev) : List String :=
  evs.filterMap (catSavePath out)

/-! ## Concrete environments used to evaluate the model -/

/-- Every Ticker-creation attempt fails. -/
def envNoTicker : ScrapeEnv :=
  ⟨fun _ => false, fun _ => CatOutcome.raise, false, false, "2026-10-12 00:00:00"⟩

/-- The first Ticker-creation attempt succeeds, every category fetch
raises, nothing else raises. -/
def envAllRaise : ScrapeEnv :=
  ⟨fun _ => true, fun _ => CatOutcome.raise, false, false, "2026-10-12 00:00:00"⟩

/-- Ticker creation succeeds at the first attempt, but `os.makedirs`
raises inside `create_output_directory`. -/
def envMkdirRaise : ScrapeEnv :=
  ⟨fun _ => true, fun _ => CatOutcome.raise, true, false, "2026-10-12 00:00:00"⟩

/-- Every category fetch raises and the summary `save_data` call raises,
so zero category files are saved and the summary save returns `False`. -/
def envSummaryRaise : ScrapeEnv :=
  ⟨fun _ => true, fun _ => CatOutcome.raise, false, true, "2026-10-12 00:00:00"⟩

/-- Every attempt succeeds and every category fetch yields a five-row
DataFrame whose save succeeds. -/
def envAllSave : ScrapeEnv :=
  ⟨fun _ => true, fun _ => CatOutcome.value (.dataFrame 5) false, false, false,
   "2026-10-12 00:00:00"⟩

end StockScraper

namespace StockScraper

/-! ## Helper lemmas: the retry loop -/

theorem firstOkFrom_le (ok : Nat → Bool) :
    ∀ r a k, firstOkFrom ok r a = some k → a ≤ k := by
  intro r
  induction r with
  | zero => intro a k h; simp [firstOkFrom] at h
  | succ n ih =>
    intro a k h
    by_cases hok : ok a
    · simp [firstOkFrom, hok] at h; omega
    · simp [firstOkFrom, hok] at h
      have := ih (a + 1) k h
      omega

theorem firstOkFrom_lt (ok : Nat → Bool) :
    ∀ r a k, firstOkFrom ok r a = some k → k < a + r := by
  intro r
  induction r with
  | zero => intro a k h; simp [firstOkFrom] at h
  | succ n ih =>
    intro a k h
    by_cases hok : ok a
    · simp [firstOkFrom, hok] at h; omega
    · simp [firstOkFrom, hok] at h
      have := ih (a + 1) k h
      omega

theorem firstOkFrom_none_forall (ok : Nat → Bool) :
    ∀ r a, firstOkFrom ok r a = none → ∀ i, a ≤ i → i < a + r → ok i = false := by
  intro r
  induction r with
  | zero => intro a _ i h₁ h₂; omega
  | succ n ih =>
    intro a h i h₁ h₂
    by_cases hok : ok a
    · simp [firstOkFrom, hok] at h
    · simp [firstOkFrom, hok] at h
      rcases Nat.eq_or_lt_of_le h₁ with rfl | hlt
      · simpa using hok
      · exact ih (a + 1) h i hlt (by omega)

theorem firstOkFrom_some_of (ok : Nat → Bool) :
    ∀ r a k, a ≤ k → k < a + r → ok k = true →
      (∀ i, a ≤ i → i < k → ok i = false) → firstOkFrom ok r a = some k := by
  intro r
  induction r with
  | zero => intro a k h₁ h₂; omega
  | succ n ih =>
    intro a k h₁ h₂ hk hmin
    rcases Nat.eq_or_lt_of_le h₁ with rfl | hlt
    · simp [firstOkFrom, hk]
    · have ha : ok a = false := hmin a (Nat.le_refl a) hlt
      simp [firstOkFrom, ha]
      exact ih (a + 1) k hlt (by omega) hk (fun i hi₁ hi₂ => hmin i (by omega) hi₂)

theorem expectedRetryTrace_cons_cons (d i j : Nat) (rest : List Nat) :
    expectedRetryTrace d (i :: j :: rest) =
      Ev.attempt i :: Ev.sleep d :: expectedRetryTrace d (j :: rest) := rfl

/-- Closed form of the retry loop: it stops at the first successful
attempt (if any), and its trace is exactly the expected
attempt/sleep-interleaved trace over the attempted indices. -/
theorem retryLoopAux_spec (ok : Nat → Bool) (d : Nat) :
    ∀ r a, retryLoopAux ok d r a =
      (match firstOkFrom ok r a with
       | some k => (some k, expectedRetryTrace d (List.range' a (k + 1 - a)))
       | none => (none, expectedRetryTrace d (List.range' a r))) := by
  intro r
  induction r with
  | zero => intro a; simp [retryLoopAux, firstOkFrom, List.range', expectedRetryTrace]
  | succ n ih =>
    intro a
    match n with
    | 0 =>
      by_cases hok : ok a <;>
        simp [retryLoopAux, firstOkFrom, hok, List.range', expectedRetryTrace]
    | Nat.succ m =>
      by_cases hok : ok a
      · simp [retryLoopAux, firstOkFrom, hok, List.range', expectedRetryTrace]
      · have hstep : retryLoopAux ok d (m + 2) a =
            (let rest := retryLoopAux ok d (m + 1) (a + 1)
             (rest.1, Ev.attempt a :: Ev.sleep d :: rest.2)) := by
          simp [retryLoopAux, hok]
        have hfirst : firstOkFrom ok (m + 2) a = firstOkFrom ok (m + 1) (a + 1) := by
          simp [firstOkFrom, hok]
        rw [hstep, ih (a + 1), hfirst]
        cases hfk : firstOkFrom ok (m + 1) (a + 1) with
        | none =>
          simp only
          have h₁ : List.range' a (m + 2) = a :: (a + 1) :: List.range' (a + 2) m := by
            simp [List.range']
          rw [h₁]
          have h₂ : List.range' (a + 1) (m + 1) = (a + 1) :: List.range' (a + 2) m := by
            simp [List.range']
          rw [h₂, expectedRetryTrace_cons_cons]
        | some k =>
          simp only
          have hak : a + 1 ≤ k := firstOkFrom_le ok (m + 1) (a + 1) k hfk
          obtain ⟨j, hj⟩ : ∃ j, k - a = j + 1 := ⟨k - a - 1, by omega⟩
          have e₁ : k + 1 - a = j + 2 := by omega
          have e₂ : k + 1 - (a + 1) = j + 1 := by omega
          rw [e₁, e₂]
          have h₁ : List.range' a (j + 2) = a :: (a + 1) :: List.range' (a + 2) j := by
            simp [List.range']
          have h₂ : List.range' (a + 1) (j + 1) = (a + 1) :: List.range' (a + 2) j := by
            simp [List.range']
          rw [h₁, h₂, expectedRetryTrace_cons_cons]

/-- Every event of the expected retry trace is an attempt or a sleep. -/
theorem expectedRetryTrace_mem (d : Nat) :
    ∀ l, ∀ e ∈ expectedRetryTrace d l, (∃ i, e = Ev.attempt i) ∨ e = Ev.sleep d := by
  intro l
  induction l with
  | nil => intro e he; simp [expectedRetryTrace] at he
  | cons i rest ih =>
    intro e he
    cases rest with
    | nil =>
      simp [expectedRetryTrace] at he
      exact Or.inl ⟨i, he⟩
    | cons j r₂ =>
      rw [expectedRetryTrace_cons_cons] at he
      simp only [List.mem_cons] at he
      rcases he with he | he | he
      · exact Or.inl ⟨i, he⟩
      · exact Or.inr he
      · exact ih e he

/-- The expected retry trace holds one attempt event per attempted index. -/
theorem expectedRetryTrace_countP_attempt (d : Nat) :
    ∀ l, (expectedRetryTrace d l).countP Ev.isAttempt = l.length := by
  intro l
  induction l with
  | nil => rfl
  | cons i rest ih =>
    cases rest with
    | nil => simp [expectedRetryTrace, List.countP_cons, Ev.isAttempt]
    | cons j r₂ =>
      rw [expectedRetryTrace_cons_cons]
      simp [List.countP_cons, Ev.isAttempt, ih]

/-! ## Helper lemmas: the category blocks -/

/-- A category block either leaves the state unchanged (fetch raised, the
guard failed, or `save_data` returned `False`) or counts one more
successful file and appends the joined path of its fixed filename. -/
theorem runCategory_cases (out : String) (spec : CatSpec) (outcome : CatOutcome)
    (st : ScrapeState) :
    runCategory out spec outcome st = (st, [])
    ∨ runCategory out spec outcome st = (st, [Ev.save spec.filename false])
    ∨ runCategory out spec outcome st =
        (⟨st.successful_files + 1, st.generated_files ++ [pathJoin out spec.filename]⟩,
         [Ev.save spec.filename true]) := by
  cases outcome with
  | raise => exact Or.inl rfl
  | value v sr =>
    by_cases hg : spec.guard v = true
    · by_cases hs : (save_data (spec.transform v) spec.filename out sr).1 = true
      · exact Or.inr (Or.inr (by simp [runCategory, hg, hs]))
      · exact Or.inr (Or.inl (by simp [runCategory, hg, hs]))
    · exact Or.inl (by simp [runCategory, hg])

/-- The final `generated_files` are the starting ones followed by the
paths of the successful category saves in trace order, and the final
`successful_files` counter grew by the number of successful saves. -/
theorem runCatList_state (out : String) (env : ScrapeEnv) :
    ∀ (l : List (Nat × CatSpec)) (st : ScrapeState),
      (runCatList out env l st).1.generated_files
          = st.generated_files ++ catSavePathsOf out (runCatList out env l st).2
      ∧ (runCatList out env l st).1.successful_files
          = st.successful_files + (runCatList out env l st).2.countP Ev.isSaveTrue := by
  intro l
  induction l with
  | nil => intro st; simp [runCatList, catSavePathsOf]
  | cons x rest ih =>
    intro st
    rcases runCategory_cases out x.2 (env.cat x.1) st with h | h | h <;>
      simp only [runCatList, h] <;>
      obtain ⟨ih₁, ih₂⟩ := ih (runCategory out x.2 (env.cat x.1) st).1 <;>
      rw [h] at ih₁ ih₂ <;>
      simp_all [catSavePathsOf, catSavePath, List.filterMap_cons, List.filterMap_append,
        List.countP_cons, List.countP_append, Ev.isSaveTrue] <;> omega

/-- Every category block in the list is entered: its opening fetch event
is in the trace, whatever every category outcome is. -/
theorem runCatList_fetch_mem (out : String) (env : ScrapeEnv) :
    ∀ (l : List (Nat × CatSpec)) (st : ScrapeState) (x : Nat × CatSpec), x ∈ l →
      Ev.fetch x.1 ∈ (runCatList out env l st).2 := by
  intro l
  induction l with
  | nil => intro st x hx; simp at hx
  | cons y rest ih =>
    intro st x hx
    rcases List.mem_cons.mp hx with rfl | hx
    · simp [runCatList]
    · have := ih (runCategory out y.2 (env.cat y.1) st).1 x hx
      simp only [runCatList, List.cons_append, List.mem_cons, List.mem_append]
      tauto

/-- The category blocks emit only fetch and category-save events. -/
theorem runCatList_events (out : String) (env : ScrapeEnv) :
    ∀ (l : List (Nat × CatSpec)) (st : ScrapeState), ∀ e ∈ (runCatList out env l st).2,
      (∃ k, e = Ev.fetch k) ∨ ∃ f b, e = Ev.save f b := by
  intro l
  induction l with
  | nil => intro st e he; simp [runCatList] at he
  | cons y rest ih =>
    intro st e he
    simp only [runCatList, List.cons_append, List.mem_cons, List.mem_append] at he
    rcases he with he | he
    · exact Or.inl ⟨y.1, he⟩
    rcases he with he | he
    · rcases runCategory_cases out y.2 (env.cat y.1) st with h | h | h
      · rw [h] at he; simp at he
      · rw [h] at he; simp only [List.mem_singleton] at he
        exact Or.inr ⟨y.2.filename, false, he⟩
      · rw [h] at he; simp only [List.mem_singleton] at he
        exact Or.inr ⟨y.2.filename, true, he⟩
    · exact ih _ e he

/-- Every generated file path of the category blocks is the output
directory joined with one of the fixed category filenames. -/
theorem runCatList_paths (out : String) (env : ScrapeEnv) :
    ∀ (l : List (Nat × CatSpec)) (st : ScrapeState) (p : String),
      p ∈ (runCatList out env l st).1.generated_files →
      p ∈ st.generated_files ∨ ∃ x, x ∈ l ∧ p = pathJoin out x.2.filename := by
  intro l
  induction l with
  | nil => intro st p hp; simp [runCatList] at hp; exact Or.inl hp
  | cons y rest ih =>
    intro st p hp
    simp only [runCatList] at hp
    rcases ih (runCategory out y.2 (env.cat y.1) st).1 p hp with h | ⟨x, hx, hpx⟩
    · rcases runCategory_cases out y.2 (env.cat y.1) st with hc | hc | hc <;> rw [hc] at h
      · exact Or.inl h
      · exact Or.inl h
      · simp only [List.mem_append, List.mem_singleton] at h
        rcases h with h | h
        · exact Or.inl h
        · exact Or.inr ⟨y, List.mem_cons_self y rest, h⟩
    · exact Or.inr ⟨x, List.mem_cons_of_mem y hx, hpx⟩

/-- Counting successful category saves equals the length of their path
list. -/
theorem catSavePathsOf_length (out : String) :
    ∀ evs : List Ev, (catSavePathsOf out evs).length = evs.countP Ev.isSaveTrue := by
  intro evs
  unfold catSavePathsOf
  induction evs with
  | nil => rfl
  | cons e rest ih =>
    cases e with
    | save f b =>
      cases b <;>
        simp [catSavePath, List.filterMap_cons, List.countP_cons, Ev.isSaveTrue, ih]
    | attempt i =>
      simp [catSavePath, List.filterMap_cons, List.countP_cons, Ev.isSaveTrue, ih]
    | sleep s =>
      simp [catSavePath, List.filterMap_cons, List.countP_cons, Ev.isSaveTrue, ih]
    | fetch k =>
      simp [catSavePath, List.filterMap_cons, List.countP_cons, Ev.isSaveTrue, ih]
    | saveSummary b =>
      simp [catSavePath, List.filterMap_cons, List.countP_cons, Ev.isSaveTrue, ih]

/-! ## Helper lemmas: evaluating get_stock_data on the three paths -/

/-- All attempts fail: `get_stock_data` returns `(False, [], None)` and
its trace is the pure retry trace over all `retry_count` attempts. -/
theorem get_stock_data_eq_fail (env : ScrapeEnv) (ts tn : String) (rc d : Nat)
    (h : firstOkFrom env.attemptOk rc 0 = none) :
    get_stock_data env ts tn rc d =
      ((false, [], none), expectedRetryTrace d (List.range' 0 rc)) := by
  simp [get_stock_data, get_stock_data_body, retryLoopAux_spec, h]

/-- Ticker creation succeeds at attempt `k` but `os.makedirs` raises: the
outermost handler returns `(False, [], None)` with the retry trace. -/
theorem get_stock_data_eq_mkdirRaise (env : ScrapeEnv) (ts tn : String) (rc d k : Nat)
    (h : firstOkFrom env.attemptOk rc 0 = some k) (hm : env.mkdirRaises = true) :
    get_stock_data env ts tn rc d =
      ((false, [], none), expectedRetryTrace d (List.range' 0 (k + 1))) := by
  simp [get_stock_data, get_stock_data_body, retryLoopAux_spec, h, hm]

/-- Ticker creation succeeds at attempt `k` and nothing escapes the inner
handlers: the full non-exceptional run. -/
theorem get_stock_data_eq_success (env : ScrapeEnv) (ts tn : String) (rc d k : Nat)
    (h : firstOkFrom env.attemptOk rc 0 = some k) (hm : env.mkdirRaises = false) :
    get_stock_data env ts tn rc d =
      ((decide (0 < (runCatList (create_output_directory ts) env catSpecs.enum
          ⟨0, []⟩).1.successful_files),
        (runCatList (create_output_directory ts) env catSpecs.enum ⟨0, []⟩).1.generated_files
          ++ [pathJoin (create_output_directory ts) "summary_report.txt"],
        some (pathJoin (create_output_directory ts) "summary_report.txt")),
       expectedRetryTrace d (List.range' 0 (k + 1))
         ++ (runCatList (create_output_directory ts) env catSpecs.enum ⟨0, []⟩).2
         ++ [Ev.saveSummary ((save_data
               (.pyStr (summaryText env.now tn ts
                 (runCatList (create_output_directory ts) env catSpecs.enum
                   ⟨0, []⟩).1.successful_files
                 (create_output_directory ts)))
               "summary_report.txt" (create_output_directory ts)
               env.summarySaveRaises).1)]) := by
  simp [get_stock_data, get_stock_data_body, retryLoopAux_spec, h, hm]

/-! ## Further helper lemmas -/

theorem firstOkFrom_ok (ok : Nat → Bool) :
    ∀ r a k, firstOkFrom ok r a = some k → ok k = true := by
  intro r
  induction r with
  | zero => intro a k h; simp [firstOkFrom] at h
  | succ n ih =>
    intro a k h
    by_cases hok : ok a
    · simp [firstOkFrom, hok] at h; subst h; exact hok
    · simp [firstOkFrom, hok] at h
      exact ih (a + 1) k h

theorem firstOk_exists (ok : Nat → Bool) (rc : Nat)
    (hok : ∃ i, i < rc ∧ ok i = true) : ∃ k, firstOkFrom ok rc 0 = some k := by
  rcases hok with ⟨i, hi, hoki⟩
  cases hfk : firstOkFrom ok rc 0 with
  | none =>
    have := firstOkFrom_none_forall ok rc 0 hfk i (Nat.zero_le i) (by omega)
    rw [this] at hoki
    exact absurd hoki (by simp)
  | some k => exact ⟨k, rfl⟩

theorem runCatList_countP_zero (out : String) (env : ScrapeEnv)
    (l : List (Nat × CatSpec)) (st : ScrapeState) :
    (runCatList out env l st).2.countP Ev.isAttempt = 0
    ∧ (runCatList out env l st).2.countP Ev.isSleep = 0 := by
  constructor <;>
    refine List.countP_eq_zero.mpr (fun e he => ?_) <;>
    rcases runCatList_events out env l st e he with ⟨k, rfl⟩ | ⟨f, b, rfl⟩ <;>
    simp [Ev.isAttempt, Ev.isSleep]

theorem expectedRetryTrace_countP_fetch (d : Nat) (l : List Nat) :
    (expectedRetryTrace d l).countP Ev.isFetch = 0 := by
  refine List.countP_eq_zero.mpr (fun e he => ?_)
  rcases expectedRetryTrace_mem d l e he with ⟨i, rfl⟩ | rfl <;> simp [Ev.isFetch]

theorem expectedRetryTrace_countP_saveTrue (d : Nat) (l : List Nat) :
    (expectedRetryTrace d l).countP Ev.isSaveTrue = 0 := by
  refine List.countP_eq_zero.mpr (fun e he => ?_)
  rcases expectedRetryTrace_mem d l e he with ⟨i, rfl⟩ | rfl <;> simp [Ev.isSaveTrue]

theorem expectedRetryTrace_catSave_nil (out : String) (d : Nat) (l : List Nat) :
    catSavePathsOf out (expectedRetryTrace d l) = [] := by
  refine List.filterMap_eq_nil_iff.mpr (fun e he => ?_)
  rcases expectedRetryTrace_mem d l e he with ⟨i, rfl⟩ | rfl <;> simp [catSavePath]

theorem catSavePathsOf_append (out : String) (l₁ l₂ : List Ev) :
    catSavePathsOf out (l₁ ++ l₂) = catSavePathsOf out l₁ ++ catSavePathsOf out l₂ :=
  List.filterMap_append l₁ l₂ (catSavePath out)

theorem catSavePathsOf_saveSummary (out : String) (b : Bool) :
    catSavePathsOf out [Ev.saveSummary b] = [] := rfl

/-! ## Claim theorems about get_stock_data -/

/-- **C1.** For `retry_count ≥ 1`: at most `retry_count` Ticker-creation
attempts are made; if attempt `k` is the first success the run attempts
exactly `0..k` with one `sleep delay` between consecutive attempts and
none after the last, and nothing later ever sleeps or re-attempts; if all
`retry_count` attempts fail the function returns `(False, [], None)` with
the pure retry trace (sleeps only between consecutive failures) and no
data category is ever fetched. -/
theorem get_stock_data_retry (env : ScrapeEnv) (ts tn : String) (rc d : Nat)
    (hrc : 1 ≤ rc) :
    ((get_stock_data env ts tn rc d).2.countP Ev.isAttempt ≤ rc)
    ∧ (∀ k, k < rc → env.attemptOk k = true → (∀ i, i < k → env.attemptOk i = false) →
        ∃ rest, (get_stock_data env ts tn rc d).2
            = expectedRetryTrace d (List.range (k + 1)) ++ rest
          ∧ rest.countP Ev.isAttempt = 0 ∧ rest.countP Ev.isSleep = 0)
    ∧ ((∀ i, i < rc → env.attemptOk i = false) →
        get_stock_data env ts tn rc d
            = ((false, [], none), expectedRetryTrace d (List.range rc))
          ∧ (get_stock_data env ts tn rc d).2.countP Ev.isFetch = 0) := by
  refine ⟨?_, ?_, ?_⟩
  · -- at most retry_count attempts, on every path
    cases hfk : firstOkFrom env.attemptOk rc 0 with
    | none =>
      rw [get_stock_data_eq_fail env ts tn rc d hfk]
      simp [expectedRetryTrace_countP_attempt]
    | some k =>
      have hklt : k < rc := by have := firstOkFrom_lt env.attemptOk rc 0 k hfk; omega
      cases hm : env.mkdirRaises with
      | true =>
        rw [get_stock_data_eq_mkdirRaise env ts tn rc d k hfk hm]
        simp [expectedRetryTrace_countP_attempt]
        omega
      | false =>
        rw [get_stock_data_eq_success env ts tn rc d k hfk hm]
        simp only [List.countP_append, expectedRetryTrace_countP_attempt,
          List.length_range', List.countP_cons, List.countP_nil,
          (runCatList_countP_zero _ env catSpecs.enum ⟨0, []⟩).1]
        simp [Ev.isAttempt]
        omega
  · -- the loop stops at the first success, sleeping only in between
    intro k hk hokk hmin
    have hfk : firstOkFrom env.attemptOk rc 0 = some k :=
      firstOkFrom_some_of env.attemptOk rc 0 k (Nat.zero_le k) (by omega) hokk
        (fun i _ hik => hmin i hik)
    rw [List.range_eq_range' (k + 1)]
    cases hm : env.mkdirRaises with
    | true =>
      refine ⟨[], ?_, rfl, rfl⟩
      rw [get_stock_data_eq_mkdirRaise env ts tn rc d k hfk hm, List.append_nil]
    | false =>
      rw [get_stock_data_eq_success env ts tn rc d k hfk hm]
      refine ⟨_, by rw [List.append_assoc], ?_, ?_⟩ <;>
        simp only [List.countP_append, List.countP_cons, List.countP_nil,
          (runCatList_countP_zero _ env catSpecs.enum ⟨0, []⟩).1,
          (runCatList_countP_zero _ env catSpecs.enum ⟨0, []⟩).2] <;>
        simp [Ev.isAttempt, Ev.isSleep]
  · -- all attempts fail
    intro hall
    have hfk : firstOkFrom env.attemptOk rc 0 = none := by
      cases hfk : firstOkFrom env.attemptOk rc 0 with
      | none => rfl
      | some k =>
        have h₁ := firstOkFrom_ok env.attemptOk rc 0 k hfk
        have h₂ := firstOkFrom_lt env.attemptOk rc 0 k hfk
        rw [hall k (by omega)] at h₁
        exact absurd h₁ (by simp)
    rw [List.range_eq_range' rc]
    refine ⟨get_stock_data_eq_fail env ts tn rc d hfk, ?_⟩
    rw [get_stock_data_eq_fail env ts tn rc d hfk]
    exact expectedRetryTrace_countP_fetch d _

/-- **C3.** Once the Ticker object exists and the output directory was
created, every one of the 15 category blocks is entered (its fetch event
is in the trace) and the summary report path is produced, for every
combination of category outcomes - in particular when any category fetch
or save raises. -/
theorem get_stock_data_category_isolation (env : ScrapeEnv) (ts tn : String)
    (rc d : Nat) (hok : ∃ i, i < rc ∧ env.attemptOk i = true)
    (hm : env.mkdirRaises = false) :
    (∀ j, j < catSpecs.length → Ev.fetch j ∈ (get_stock_data env ts tn rc d).2)
    ∧ (get_stock_data env ts tn rc d).1.2.2
        = some (pathJoin (create_output_directory ts) "summary_report.txt") := by
  obtain ⟨k, hk⟩ := firstOk_exists env.attemptOk rc hok
  rw [get_stock_data_eq_success env ts tn rc d k hk hm]
  refine ⟨?_, rfl⟩
  intro j hj
  have hmem : (j, catSpecs.get ⟨j, hj⟩) ∈ catSpecs.enum := by
    rw [List.mk_mem_enum_iff_getElem?]
    simp [List.getElem?_eq_getElem hj]
  have := runCatList_fetch_mem (create_output_directory ts) env catSpecs.enum
    ⟨0, []⟩ (j, catSpecs.get ⟨j, hj⟩) hmem
  simp only [List.mem_append]
  exact Or.inl (Or.inr this)

/-- Witness for C3: with every category fetch raising, the first category
block is still entered. -/
theorem get_stock_data_category_isolation_witness :
    Ev.fetch 0 ∈ (get_stock_data envAllRaise "TCS.NS" "TCS" 3 2).2 :=
  (get_stock_data_category_isolation envAllRaise "TCS.NS" "TCS" 3 2
    ⟨0, by decide, rfl⟩ rfl).1 0 (by decide)

/-- **C4, counterexample.** The Ticker object is created successfully
(the first attempt succeeds and is the whole retry trace), yet
`get_stock_data` returns `(False, [], None)`: no summary report is built,
no `save_data` call happens, and the third component is `None` - because
`create_output_directory` raised after the successful creation. -/
theorem get_stock_data_summary_counterexample :
    envMkdirRaise.attemptOk 0 = true
    ∧ get_stock_data envMkdirRaise "TCS.NS" "TCS" 3 2 = ((false, [], none), [Ev.attempt 0])
    ∧ (get_stock_data envMkdirRaise "TCS.NS" "TCS" 3 2).2.countP Ev.isSaveSummary = 0 := by
  exact ⟨rfl, rfl, rfl⟩

/-- **C4, amended.** Whenever the Ticker object is created successfully
and no exception is raised outside the per-category handlers (i.e. the
output-directory creation does not raise), `get_stock_data` builds the
interpolated summary string, calls `save_data` on it with filename
`summary_report.txt`, appends the summary path as the last element of the
returned file list, and returns that path as its third component - even
when zero category files were saved and even when saving the summary
returns `False`. -/
theorem get_stock_data_summary_always (env : ScrapeEnv) (ts tn : String) (rc d : Nat)
    (hok : ∃ i, i < rc ∧ env.attemptOk i = true) (hm : env.mkdirRaises = false) :
    (get_stock_data env ts tn rc d).1.2.2
        = some (pathJoin (create_output_directory ts) "summary_report.txt")
    ∧ (get_stock_data env ts tn rc d).1.2.1.getLast?
        = some (pathJoin (create_output_directory ts) "summary_report.txt")
    ∧ ∃ n, Ev.saveSummary ((save_data
          (.pyStr (summaryText env.now tn ts n (create_output_directory ts)))
          "summary_report.txt" (create_output_directory ts)
          env.summarySaveRaises).1) ∈ (get_stock_data env ts tn rc d).2 := by
  obtain ⟨k, hk⟩ := firstOk_exists env.attemptOk rc hok
  rw [get_stock_data_eq_success env ts tn rc d k hk hm]
  refine ⟨rfl, List.getLast?_concat _, ?_⟩
  refine ⟨(runCatList (create_output_directory ts) env catSpecs.enum
    ⟨0, []⟩).1.successful_files, ?_⟩
  simp [List.mem_append]

/-- Witness for the amended C4 at a concrete input. -/
theorem get_stock_data_summary_always_witness :
    (get_stock_data envSummaryRaise "TCS.NS" "TCS" 3 2).1.2.2
      = some (pathJoin (create_output_directory "TCS.NS") "summary_report.txt") :=
  (get_stock_data_summary_always envSummaryRaise "TCS.NS" "TCS" 3 2
    ⟨0, by decide, rfl⟩ rfl).1

/-- **C2.** For every data value, filename, output directory and
exception outcome, `save_data` writes a file and returns `True` exactly
when the data is non-empty (not `None`, not an empty DataFrame, not a dict
converting to an empty DataFrame, not a string that strips to empty) and
nothing raises inside the `try`; on empty data it returns `False` and
writes nothing. -/
theorem save_data_nonempty_iff (d : PyData) (f o : String) (r : Bool) :
    ((save_data d f o r).1 = true ↔ (dataIsEmpty d = false ∧ r = false))
    ∧ ((save_data d f o r).2 = some (pathJoin o f) ↔ (save_data d f o r).1 = true)
    ∧ (dataIsEmpty d = true → save_data d f o r = (false, none)) := by
  rcases d with _ | rows | rows | len | s <;> cases r <;>
    simp [save_data, dataIsEmpty] <;> split <;> simp_all

/-- Witness for C2 at concrete inputs: a one-row DataFrame with no
exception is saved, and `None` data is rejected with no write. -/
theorem save_data_nonempty_iff_witness :
    save_data .pyNone "company_info.csv" "stock_data_TCS_NS" false = (false, none) :=
  (save_data_nonempty_iff .pyNone "company_info.csv" "stock_data_TCS_NS" false).2.2 rfl

/-- **C6.** The resolution step removes all spaces from the company name
and yields a non-empty candidate list; `get_indian_tickers base` is exactly
`[base ++ ".NS"]`. -/
theorem resolution_spec (name base : String) :
    get_indian_tickers base = [base ++ ".NS"]
    ∧ (get_indian_tickers (removeSpaces name)).length = 1
    ∧ (removeSpaces name).data.count ' ' = 0 := by
  refine ⟨rfl, rfl, ?_⟩
  simp [removeSpaces, List.count_eq_zero]

/-- **C9.** `create_output_directory` is deterministic in the ticker
symbol (its name does not depend on the existing directories), maps
`"TCS.NS"` to `"stock_data_TCS_NS"`, and calls `os.makedirs` (extends the
directory list) exactly when the directory does not already exist. -/
theorem create_output_directory_spec (t : String) (fs₁ fs₂ : List String) :
    create_output_directory "TCS.NS" = "stock_data_TCS_NS"
    ∧ (create_output_directory_fs t fs₁).1 = (create_output_directory_fs t fs₂).1
    ∧ ((create_output_directory_fs t fs₁).1 ∈ fs₁ →
        (create_output_directory_fs t fs₁).2 = fs₁)
    ∧ ((create_output_directory_fs t fs₁).1 ∉ fs₁ →
        (create_output_directory_fs t fs₁).2 = fs₁ ++ [(create_output_directory_fs t fs₁).1]) := by
  refine ⟨by decide, ?_, ?_, ?_⟩ <;> simp only [create_output_directory_fs] <;>
    by_cases h : create_output_directory t ∈ fs₁ <;>
    by_cases h₂ : create_output_directory t ∈ fs₂ <;> simp [h, h₂]

/-- Witness for C9 at a concrete input: creating the directory for
`"TCS.NS"` over an empty file system appends the new directory. -/
theorem create_output_directory_spec_witness :
    (create_output_directory_fs "TCS.NS" []).2 = [] ++ [(create_output_directory_fs "TCS.NS" []).1] :=
  (create_output_directory_spec "TCS.NS" [] []).2.2.2 (by decide)

/-- Witness for C1 at a concrete input: two attempts, both failing, give
`(False, [], None)` with the pure two-attempt retry trace. -/
theorem get_stock_data_retry_witness :
    get_stock_data envNoTicker "TCS.NS" "TCS" 2 7
      = ((false, [], none), expectedRetryTrace 7 (List.range 2)) :=
  ((get_stock_data_retry envNoTicker "TCS.NS" "TCS" 2 7 (by decide)).2.2
    (fun _ _ => rfl)).1

/-- **C8.** `get_stock_data` never propagates an exception: it always
returns a `(success, files, summary_path)` triple (it is a total function
into `ScrapeResult × List Ev`), and whenever the body of the outermost
`try` ends in an unhandled exception the outermost handler returns exactly
`(False, [], None)`. -/
theorem get_stock_data_outer_handler (env : ScrapeEnv) (ts tn : String)
    (rc d : Nat) (tr : List Ev)
    (h : get_stock_data_body env ts tn rc d = .error tr) :
    get_stock_data env ts tn rc d = ((false, [], none), tr) := by
  simp [get_stock_data, h]

/-- Witness for C8: with `os.makedirs` raising after a successful first
attempt, the body errors out and the handler returns `(False, [], None)`. -/
theorem get_stock_data_outer_handler_witness :
    get_stock_data envMkdirRaise "TCS.NS" "TCS" 3 2 = ((false, [], none), [Ev.attempt 0]) :=
  get_stock_data_outer_handler envMkdirRaise "TCS.NS" "TCS" 3 2 [Ev.attempt 0] rfl

/-- **C7.** The 16 fixed filenames (15 category files and the summary
report) are pairwise distinct, and every path ever appended to the
returned file list is the output directory joined with one of them. -/
theorem get_stock_data_filenames :
    allFilenames.Nodup
    ∧ ∀ (env : ScrapeEnv) (ts tn : String) (rc d : Nat) (p : String),
        p ∈ (get_stock_data env ts tn rc d).1.2.1 →
        ∃ f, f ∈ allFilenames ∧ p = pathJoin (create_output_directory ts) f := by
  constructor
  · decide
  · intro env ts tn rc d p hp
    cases hfk : firstOkFrom env.attemptOk rc 0 with
    | none =>
      rw [get_stock_data_eq_fail env ts tn rc d hfk] at hp
      simp at hp
    | some k =>
      cases hm : env.mkdirRaises with
      | true =>
        rw [get_stock_data_eq_mkdirRaise env ts tn rc d k hfk hm] at hp
        simp at hp
      | false =>
        rw [get_stock_data_eq_success env ts tn rc d k hfk hm] at hp
        simp only [List.mem_append, List.mem_singleton] at hp
        rcases hp with hp | hp
        · rcases runCatList_paths (create_output_directory ts) env catSpecs.enum
            ⟨0, []⟩ p hp with h | ⟨x, hx, rfl⟩
          · simp at h
          · refine ⟨x.2.filename, ?_, rfl⟩
            have hxc : x.2 ∈ catSpecs := List.snd_mem_of_mem_enumFrom hx
            simp only [allFilenames, List.mem_append]
            exact Or.inl (List.mem_map_of_mem CatSpec.filename hxc)
        · exact ⟨"summary_report.txt", by simp [allFilenames], hp⟩

/-- Witness for C7: the one file generated by a run whose categories all
raise is the summary report, and its path is the join of the output
directory with one of the fixed names. -/
theorem get_stock_data_filenames_witness :
    ∃ f, f ∈ allFilenames ∧
      pathJoin (create_output_directory "TCS.NS") "summary_report.txt"
        = pathJoin (create_output_directory "TCS.NS") f :=
  get_stock_data_filenames.2 envAllRaise "TCS.NS" "TCS" 3 2
    (pathJoin (create_output_directory "TCS.NS") "summary_report.txt") (by decide)

/-- **C10.** On the non-exceptional return path (Ticker created, no
unhandled exception): the returned file list is the paths of the
successful category `save_data` calls, in order, followed by the summary
path; its length is the number of successful saves plus one; its last
element and the third return component are the summary path; and the
success flag is `True` iff at least one category save succeeded. -/
theorem get_stock_data_filelist (env : ScrapeEnv) (ts tn : String) (rc d : Nat)
    (hok : ∃ i, i < rc ∧ env.attemptOk i = true) (hm : env.mkdirRaises = false) :
    (get_stock_data env ts tn rc d).1.2.1
        = catSavePathsOf (create_output_directory ts) (get_stock_data env ts tn rc d).2
          ++ [pathJoin (create_output_directory ts) "summary_report.txt"]
    ∧ (get_stock_data env ts tn rc d).1.2.1.length
        = (get_stock_data env ts tn rc d).2.countP Ev.isSaveTrue + 1
    ∧ (get_stock_data env ts tn rc d).1.2.1.getLast?
        = some (pathJoin (create_output_directory ts) "summary_report.txt")
    ∧ (get_stock_data env ts tn rc d).1.2.2
        = some (pathJoin (create_output_directory ts) "summary_report.txt")
    ∧ ((get_stock_data env ts tn rc d).1.1 = true ↔
        1 ≤ (get_stock_data env ts tn rc d).2.countP Ev.isSaveTrue) := by
  obtain ⟨k, hk⟩ := firstOk_exists env.attemptOk rc hok
  rw [get_stock_data_eq_success env ts tn rc d k hk hm]
  obtain ⟨hgen, hcount⟩ :=
    runCatList_state (create_output_directory ts) env catSpecs.enum ⟨0, []⟩
  simp only [List.nil_append, Nat.zero_add] at hgen hcount
  have hsave : catSavePathsOf (create_output_directory ts)
      (expectedRetryTrace d (List.range' 0 (k + 1))
        ++ (runCatList (create_output_directory ts) env catSpecs.enum ⟨0, []⟩).2
        ++ [Ev.saveSummary ((save_data
              (.pyStr (summaryText env.now tn ts
                (runCatList (create_output_directory ts) env catSpecs.enum
                  ⟨0, []⟩).1.successful_files
                (create_output_directory ts)))
              "summary_report.txt" (create_output_directory ts)
              env.summarySaveRaises).1)])
      = catSavePathsOf (create_output_directory ts)
          (runCatList (create_output_directory ts) env catSpecs.enum ⟨0, []⟩).2 := by
    rw [catSavePathsOf_append, catSavePathsOf_append, expectedRetryTrace_catSave_nil,
      catSavePathsOf_saveSummary, List.nil_append, List.append_nil]
  have hcnt : (expectedRetryTrace d (List.range' 0 (k + 1))
        ++ (runCatList (create_output_directory ts) env catSpecs.enum ⟨0, []⟩).2
        ++ [Ev.saveSummary ((save_data
              (.pyStr (summaryText env.now tn ts
                (runCatList (create_output_directory ts) env catSpecs.enum
                  ⟨0, []⟩).1.successful_files
                (create_output_directory ts)))
              "summary_report.txt" (create_output_directory ts)
              env.summarySaveRaises).1)]).countP Ev.isSaveTrue
      = ((runCatList (create_output_directory ts) env catSpecs.enum ⟨0, []⟩).2).countP
          Ev.isSaveTrue := by
    simp [List.countP_append, expectedRetryTrace_countP_saveTrue, Ev.isSaveTrue]
  refine ⟨?_, ?_, List.getLast?_concat _, rfl, ?_⟩
  · rw [hsave, ← hgen]
  · rw [hcnt]
    simp [hgen, catSavePathsOf_length, hcount]
  · rw [hcnt, decide_eq_true_iff, hcount]
    omega

/-- Witness for C10 at a concrete input: with every category yielding a
saved five-row DataFrame, the file-list length is the successful-save
count plus one. -/
theorem get_stock_data_filelist_witness :
    (get_stock_data envAllSave "TCS.NS" "TCS" 3 2).1.2.1.length
      = (get_stock_data envAllSave "TCS.NS" "TCS" 3 2).2.countP Ev.isSaveTrue + 1 :=
  (get_stock_data_filelist envAllSave "TCS.NS" "TCS" 3 2 ⟨0, by decide, rfl⟩ rfl).2.1

/-- **C5.** `run_scraper` returns success `False` (and then exactly
`(False, [], None)`) iff every candidate ticker failed; otherwise it
returns `True` with the concatenated file lists of all successful tickers
and the summary path of the last successful ticker that produced a truthy
one. -/
theorem run_scraper_spec (envOf : String → ScrapeEnv) (tn : String) (rc d : Nat) :
    ((run_scraper envOf tn rc d).1 = false ↔
      ∀ t ∈ get_indian_tickers (removeSpaces tn),
        (get_stock_data (envOf t) t tn rc d).1.1 = false)
    ∧ ((run_scraper envOf tn rc d).1 = false →
        run_scraper envOf tn rc d = (false, [], none))
    ∧ ((run_scraper envOf tn rc d).1 = true →
        run_scraper envOf tn rc d =
          (true,
           ((get_indian_tickers (removeSpaces tn)).filter
               (fun t => (get_stock_data (envOf t) t tn rc d).1.1)).flatMap
             (fun t => (get_stock_data (envOf t) t tn rc d).1.2.1),
           ((get_indian_tickers (removeSpaces tn)).filterMap
               (fun t => if (get_stock_data (envOf t) t tn rc d).1.1
                     && pyTruthyOpt (get_stock_data (envOf t) t tn rc d).1.2.2
                   then (get_stock_data (envOf t) t tn rc d).1.2.2 else none)).getLast?)) := by
  by_cases hg : (get_stock_data (envOf (removeSpaces tn ++ ".NS"))
      (removeSpaces tn ++ ".NS") tn rc d).1.1 = true
  · by_cases ht : pyTruthyOpt (get_stock_data (envOf (removeSpaces tn ++ ".NS"))
        (removeSpaces tn ++ ".NS") tn rc d).1.2.2 = true
    · obtain ⟨s, hs⟩ : ∃ s, (get_stock_data (envOf (removeSpaces tn ++ ".NS"))
          (removeSpaces tn ++ ".NS") tn rc d).1.2.2 = some s := by
        cases hc : (get_stock_data (envOf (removeSpaces tn ++ ".NS"))
            (removeSpaces tn ++ ".NS") tn rc d).1.2.2 with
        | none => rw [hc] at ht; simp [pyTruthyOpt] at ht
        | some s => exact ⟨s, rfl⟩
      rw [hs] at ht
      simp [run_scraper, run_scraper_loop, get_indian_tickers, hg, ht, hs]
    · simp [run_scraper, run_scraper_loop, get_indian_tickers, hg, ht]
  · simp [run_scraper, run_scraper_loop, get_indian_tickers, hg]

/-- Witness for C5 at a concrete input: when the single candidate fails
(Ticker creation never succeeds), `run_scraper` returns
`(False, [], None)`. -/
theorem run_scraper_spec_witness :
    run_scraper (fun _ => envNoTicker) "TCS" 1 1 = (false, [], none) :=
  (run_scraper_spec (fun _ => envNoTicker) "TCS" 1 1).2.1 rfl

end StockScraper
